import Mathlib

/-!
Verification development for the tacky-borders animation core
(`src/animations.rs`, `src/event_hook.rs`).

Machine `f32` values are embedded as exact rationals (`ℚ`); `Duration`
becomes a rational number of seconds (`anim_elapsed.as_secs_f32()`).
`HashMap` values become association lists with distinct keys (a YAML
mapping cannot repeat a key).
-/

namespace TackyBorders

/-- `pub const ANIM_NONE: i32 = 0;` (animations.rs line 11). -/
def ANIM_NONE : Int := 0

/-- `pub const ANIM_FADE: i32 = 1;` (animations.rs line 12). -/
def ANIM_FADE : Int := 1

/-- `pub enum AnimationType { Spiral, ReverseSpiral, Fade }` (animations.rs 14-19). -/
inductive AnimationType where
  | Spiral : AnimationType
  | ReverseSpiral : AnimationType
  | Fade : AnimationType
deriving DecidableEq

/-- A `serde_yaml::Value` as the `animation` deserializer inspects it
(animations.rs 34-38): a number, null, or anything else (`_` arm). -/
inductive YamlValue where
  | number : ℚ → YamlValue
  | null : YamlValue
  | other : YamlValue
deriving DecidableEq

/-- The custom deserializer `fn animation` (animations.rs 22-48).
`None` (an absent or null section) yields the empty map; otherwise each
present key is inserted with its numeric speed, or with the default
speed `100.0` when its value is null or malformed (`speed.unwrap_or(default_speed)`). -/
def animation (m : Option (List (AnimationType × YamlValue))) :
    List (AnimationType × ℚ) :=
  match m with
  | none => []
  | some l =>
    l.map (fun kv =>
      let speed : Option ℚ :=
        match kv.2 with
        | YamlValue.number n => some n
        | YamlValue.null => none
        | YamlValue.other => none
      (kv.1, speed.getD 100))

/-- `fn default_fps() -> i32 { 60 }` (animations.rs 68-70). -/
def default_fps : Int := 60

/-- `pub struct Animations` (animations.rs 50-66): the two configured
speed maps, the runtime map, target fps, and the per-border runtime
fade/spiral state (`#[serde(skip)]` fields start zeroed). -/
structure Animations where
  active : List (AnimationType × ℚ)
  inactive : List (AnimationType × ℚ)
  current : List (AnimationType × ℚ)
  fps : Int
  fade_progress : ℚ
  fade_to_visible : Bool
  spiral_angle : ℚ
deriving DecidableEq

/-- Modelled from the spec: the `Color` type lives in the color module,
which is not under `src/`; the animation code touches it only through
`get_opacity` / `set_opacity`, so it is modelled by its opacity alone. -/
structure Color where
  opacity : ℚ
deriving DecidableEq

/-- `border.active_color.get_opacity()` reads the stored opacity. -/
def Color.get_opacity (c : Color) : ℚ := c.opacity

/-- `border.active_color.set_opacity(o)` replaces the stored opacity. -/
def Color.set_opacity (c : Color) (o : ℚ) : Color := { c with opacity := o }

/-- `RECT` window geometry (left/top/right/bottom as `i32`). -/
structure RECT where
  left : Int
  top : Int
  right : Int
  bottom : Int
deriving DecidableEq

/-- Modelled from the spec: `Matrix3x2::rotation(angle, cx, cy)` comes from
the external `windows` crate; the spec (§6) describes the render-transform
output as "a 2-D affine rotation matrix (angle, center-x, center-y)", so the
matrix is modelled by those three parameters. -/
structure Matrix3x2 where
  angle : ℚ
  center_x : ℚ
  center_y : ℚ
deriving DecidableEq

/-- The fields of `WindowBorder` that the animation core and the event
dispatcher read or write (the rest of the struct lives outside `src/`). -/
structure WindowBorder where
  window_rect : RECT
  brush_transform : Matrix3x2
  active_color : Color
  inactive_color : Color
  is_active_window : Bool
  animations : Animations
  event_anim : Int
deriving DecidableEq

/-- The shape of `crate::utils::cubic_bezier`: four control coordinates,
returning an easing function or an error (embedded as `Option`). -/
def CubicBezierFn : Type := ℚ → ℚ → ℚ → ℚ → Option (ℚ → ℚ)

/-- The ease-in-out quadratic curve. The source comments its canonical
control points `(0.42, 0.0, 0.58, 1.0)` with "Basically EaseInOutQuad"
(animations.rs 142), and the spec (§4.1) pins the easing function down
only at the endpoints (exactly 0 at 0, exactly 1 at 1) plus monotonicity. -/
def easeInOutQuad (t : ℚ) : ℚ :=
  if t ≤ 1 / 2 then 2 * t ^ 2 else 1 - 2 * (1 - t) ^ 2

/-- Modelled from the spec: `cubic_bezier` lives in `crate::utils`, which is
not under `src/`. Spec §4.1: construction fails (`InvalidCurve`) when the
control coordinates cannot produce a parametric curve solvable for a given
x — the standard solvability condition for cubic Bézier easing is that both
control x-coordinates lie in `[0, 1]`; on success the easing function maps
0 to exactly 0 and 1 to exactly 1 and is monotone for the canonical
ease-in-out points. The eased value is modelled by `easeInOutQuad`, the
curve the source itself names for its canonical control points. -/
def cubic_bezier : CubicBezierFn := fun x1 _y1 x2 _y2 =>
  if 0 ≤ x1 ∧ x1 ≤ 1 ∧ 0 ≤ x2 ∧ x2 ≤ 1 then some easeInOutQuad else none

/-- An easing constructor that always fails, exercising the
`InvalidCurve` degradation path of the in-progress fade branch. -/
def cbNone : CubicBezierFn := fun _ _ _ _ => none

/-- The initial-reveal seeding at the top of `animate_fade`
(animations.rs 109-117): when both opacities are exactly `0.0`,
`fade_progress` is reset to 0 (focused) or 1 (unfocused) and
`fade_to_visible` is raised. -/
def fadeSeed (border : WindowBorder) : WindowBorder :=
  if border.active_color.get_opacity = 0 ∧ border.inactive_color.get_opacity = 0 then
    { border with
        animations :=
          { border.animations with
              fade_progress := if border.is_active_window then 0 else 1,
              fade_to_visible := true } }
  else border

/-- `let direction = match border.is_active_window { true => 1.0, false => -1.0 }`
(animations.rs 119-122). -/
def fadeDirection (border : WindowBorder) : ℚ :=
  if border.is_active_window then 1 else -1

/-- `fade_progress` right after `border.animations.fade_progress += delta_x`
(animations.rs 124-125), with the seeding already applied. -/
def fadeIncrement (border : WindowBorder) (anim_elapsed anim_speed : ℚ) : ℚ :=
  (fadeSeed border).animations.fade_progress
    + anim_elapsed * anim_speed * fadeDirection border

/-- The finished-fade branch (animations.rs 128-138): clamp
`fade_progress` to `[0, 1]` (`fp.clamp(0.0, 1.0) = max 0 (min fp 1)`),
resolve both opacities, lower `fade_to_visible`, and set `ANIM_NONE`. -/
def fadeFinish (border : WindowBorder) (fp : ℚ) : WindowBorder :=
  let final_opacity := max 0 (min fp 1)
  { border with
      active_color := border.active_color.set_opacity final_opacity,
      inactive_color := border.inactive_color.set_opacity (1 - final_opacity),
      animations :=
        { border.animations with
            fade_progress := final_opacity,
            fade_to_visible := false },
      event_anim := ANIM_NONE }

/-- The in-progress branch (animations.rs 140-158): build the easing
curve (returning the border unchanged past the progress update if that
fails), evaluate it at `fade_progress`, and write the opacity pair. -/
def fadeApplyEase (cb : CubicBezierFn) (border : WindowBorder) : WindowBorder :=
  match cb (42/100) 0 (58/100) 1 with
  | none => border
  | some ease_in_out_quad =>
    let y_coord := ease_in_out_quad border.animations.fade_progress
    let po : ℚ × ℚ :=
      if border.animations.fade_to_visible then
        if border.is_active_window then (y_coord, 0) else (0, 1 - y_coord)
      else (y_coord, 1 - y_coord)
    { border with
        active_color := border.active_color.set_opacity po.1,
        inactive_color := border.inactive_color.set_opacity po.2 }

/-- `pub fn animate_fade` (animations.rs 108-159), parameterized by the
external easing constructor: seed on first reveal, advance
`fade_progress` by `elapsed * speed * direction`, then either finish
(progress left `[0, 1]`) or apply the eased cross-fade. -/
def animate_fadeWith (cb : CubicBezierFn) (border : WindowBorder)
    (anim_elapsed anim_speed : ℚ) : WindowBorder :=
  let border1 := fadeSeed border
  let fp := fadeIncrement border anim_elapsed anim_speed
  if ¬ (0 ≤ fp ∧ fp ≤ 1) then
    fadeFinish border1 fp
  else
    fadeApplyEase cb
      { border1 with animations := { border1.animations with fade_progress := fp } }

/-- `animate_fade` with the (spec-modelled) `crate::utils::cubic_bezier`. -/
def animate_fade (border : WindowBorder) (anim_elapsed anim_speed : ℚ) :
    WindowBorder :=
  animate_fadeWith cubic_bezier border anim_elapsed anim_speed

/-- The normalization at the top of `animate_spiral` (animations.rs 73-75):
a single subtraction of 360 when the angle is at least 360, nothing else. -/
def spiralNormalize (angle : ℚ) : ℚ :=
  if 360 ≤ angle then angle - 360 else angle

/-- Truncation toward zero, as Rust float-to-computed division behaves in
`x % y` (the remainder keeps the dividend's sign). -/
def rtrunc (q : ℚ) : Int :=
  if 0 ≤ q then ⌊q⌋ else ⌈q⌉

/-- Rust's `%` on floats: `x % y = x - y * trunc(x / y)`. -/
def rrem (x y : ℚ) : ℚ :=
  x - y * (rtrunc (x / y) : ℚ)

/-- The normalization at the top of `animate_reverse_spiral`
(animations.rs 93-96): `spiral_angle %= 360.0` followed by `+= 360.0`
when negative. -/
def reverseSpiralNormalize (angle : ℚ) : ℚ :=
  if rrem angle 360 < 0 then rrem angle 360 + 360 else rrem angle 360

/-- `pub fn animate_spiral` (animations.rs 72-86): normalize (overflow
only), add the per-tick delta capped at 359.0, and rebuild the rotation
transform about the rectangle's center (`i32` division truncates). -/
def animate_spiral (border : WindowBorder) (anim_elapsed anim_speed : ℚ) :
    WindowBorder :=
  let a := spiralNormalize border.animations.spiral_angle
    + min (anim_elapsed * anim_speed) 359
  let center_x : Int := Int.tdiv (border.window_rect.right - border.window_rect.left) 2
  let center_y : Int := Int.tdiv (border.window_rect.bottom - border.window_rect.top) 2
  { border with
      animations := { border.animations with spiral_angle := a },
      brush_transform :=
        { angle := a, center_x := (center_x : ℚ), center_y := (center_y : ℚ) } }

/-- `pub fn animate_reverse_spiral` (animations.rs 88-106): normalize into
`[0, 360)` (remainder plus wrap of negatives), subtract the capped delta,
and rebuild the rotation transform. -/
def animate_reverse_spiral (border : WindowBorder) (anim_elapsed anim_speed : ℚ) :
    WindowBorder :=
  let a := reverseSpiralNormalize border.animations.spiral_angle
    - min (anim_elapsed * anim_speed) 359
  let center_x : Int := Int.tdiv (border.window_rect.right - border.window_rect.left) 2
  let center_y : Int := Int.tdiv (border.window_rect.bottom - border.window_rect.top) 2
  { border with
      animations := { border.animations with spiral_angle := a },
      brush_transform :=
        { angle := a, center_x := (center_x : ℚ), center_y := (center_y : ℚ) } }

/-- `OBJID_CURSOR.0` from the Win32 headers (`0xFFFFFFF7` as `i32`). -/
def OBJID_CURSOR : Int := -9

/-- Win32 `EVENT_SYSTEM_FOREGROUND = 0x0003`. -/
def EVENT_SYSTEM_FOREGROUND : Nat := 0x0003

/-- Win32 `EVENT_OBJECT_LOCATIONCHANGE = 0x800B`. -/
def EVENT_OBJECT_LOCATIONCHANGE : Nat := 0x800B

/-- Win32 `EVENT_OBJECT_HIDE = 0x8003`. -/
def EVENT_OBJECT_HIDE : Nat := 0x8003

/-- Win32 `EVENT_OBJECT_SHOW = 0x8002`. -/
def EVENT_OBJECT_SHOW : Nat := 0x8002

/-- Win32 `EVENT_OBJECT_DESTROY = 0x8001`. -/
def EVENT_OBJECT_DESTROY : Nat := 0x8001

/-- Modelled from the spec: the operations `handle_win_event` invokes on
the border (`update`, `set_pos`, `ShowWindow`/`DestroyWindow` on its
window) are defined in the border module, which is not under `src/`; the
spec's dispatcher table (§4.3) describes each as a request to the border
owner, so the dispatcher's effect is modelled as the emitted request. -/
inductive BorderEffect where
  | updateBorder : BorderEffect
  | setPos : BorderEffect
  | hideWindow : BorderEffect
  | showWindow : BorderEffect
  | destroyWindow : BorderEffect
deriving DecidableEq

/-- `pub extern "system" fn handle_win_event` (event_hook.rs 25-89):
cursor-object notifications are dropped first; each recognized event emits
its one request against the (populated) border, and the dispatcher itself
writes nothing into the border state. -/
def handle_win_event (event : Nat) (id_object : Int) (border : WindowBorder) :
    WindowBorder × List BorderEffect :=
  if id_object = OBJID_CURSOR then (border, [])
  else if event = EVENT_OBJECT_LOCATIONCHANGE then (border, [BorderEffect.updateBorder])
  else if event = EVENT_SYSTEM_FOREGROUND then (border, [BorderEffect.setPos])
  else if event = EVENT_OBJECT_HIDE then (border, [BorderEffect.hideWindow])
  else if event = EVENT_OBJECT_SHOW then (border, [BorderEffect.showWindow])
  else if event = EVENT_OBJECT_DESTROY then (border, [BorderEffect.destroyWindow])
  else (border, [])

/-- A freshly constructed border (spec §3 lifecycle: runtime state starts
zeroed/default), focused, with a pending fade: the concrete state for the
fade-in-from-hidden scenario. -/
def fadeScenarioBorder : WindowBorder :=
  { window_rect := { left := 0, top := 0, right := 200, bottom := 100 },
    brush_transform := { angle := 0, center_x := 0, center_y := 0 },
    active_color := { opacity := 0 },
    inactive_color := { opacity := 0 },
    is_active_window := true,
    animations :=
      { active := [(AnimationType.Fade, 2)], inactive := [(AnimationType.Fade, 2)],
        current := [(AnimationType.Fade, 2)], fps := 60,
        fade_progress := 0, fade_to_visible := false, spiral_angle := 0 },
    event_anim := ANIM_FADE }

/-- A border sitting at the upper fade bound: focused, fully
active-opaque, `fade_progress = 1`, fade still marked active. -/
def fadeBoundBorder : WindowBorder :=
  { window_rect := { left := 0, top := 0, right := 200, bottom := 100 },
    brush_transform := { angle := 0, center_x := 0, center_y := 0 },
    active_color := { opacity := 1 },
    inactive_color := { opacity := 0 },
    is_active_window := true,
    animations :=
      { active := [(AnimationType.Fade, 2)], inactive := [(AnimationType.Fade, 2)],
        current := [(AnimationType.Fade, 2)], fps := 60,
        fade_progress := 1, fade_to_visible := false, spiral_angle := 0 },
    event_anim := ANIM_FADE }

/-- A border mid-fade at progress 3/10, unfocused, opacities not both zero. -/
def midFadeBorder : WindowBorder :=
  { window_rect := { left := 0, top := 0, right := 200, bottom := 100 },
    brush_transform := { angle := 0, center_x := 0, center_y := 0 },
    active_color := { opacity := 1/4 },
    inactive_color := { opacity := 3/4 },
    is_active_window := false,
    animations :=
      { active := [(AnimationType.Fade, 2)], inactive := [(AnimationType.Fade, 2)],
        current := [(AnimationType.Fade, 2)], fps := 60,
        fade_progress := 3/10, fade_to_visible := false, spiral_angle := 0 },
    event_anim := ANIM_FADE }

/-- A freshly constructed border with zeroed spiral state (spec §3
lifecycle), used for spiral tick sequences. -/
def spiralBorder : WindowBorder :=
  { window_rect := { left := 0, top := 0, right := 200, bottom := 100 },
    brush_transform := { angle := 0, center_x := 0, center_y := 0 },
    active_color := { opacity := 1 },
    inactive_color := { opacity := 0 },
    is_active_window := true,
    animations :=
      { active := [(AnimationType.Spiral, 100)], inactive := [(AnimationType.Spiral, 100)],
        current := [(AnimationType.Spiral, 100)], fps := 60,
        fade_progress := 0, fade_to_visible := false, spiral_angle := 0 },
    event_anim := ANIM_NONE }

/-! ## Helper lemmas -/

/-- The first-reveal seeding never touches the colors. -/
theorem fadeSeed_active_color (b : WindowBorder) :
    (fadeSeed b).active_color = b.active_color := by
  unfold fadeSeed; split <;> rfl

theorem fadeSeed_inactive_color (b : WindowBorder) :
    (fadeSeed b).inactive_color = b.inactive_color := by
  unfold fadeSeed; split <;> rfl

theorem fadeSeed_is_active (b : WindowBorder) :
    (fadeSeed b).is_active_window = b.is_active_window := by
  unfold fadeSeed; split <;> rfl

theorem fadeSeed_event_anim (b : WindowBorder) :
    (fadeSeed b).event_anim = b.event_anim := by
  unfold fadeSeed; split <;> rfl

/-- The in-progress easing branch writes only the colors, never the
animation record. -/
theorem fadeApplyEase_animations (cb : CubicBezierFn) (b : WindowBorder) :
    (fadeApplyEase cb b).animations = b.animations := by
  unfold fadeApplyEase
  split <;> rfl

/-- When the border is not an initial both-zero reveal, seeding is the identity. -/
theorem fadeSeed_of_not_hidden (b : WindowBorder)
    (h : ¬ (b.active_color.get_opacity = 0 ∧ b.inactive_color.get_opacity = 0)) :
    fadeSeed b = b := by
  unfold fadeSeed; exact if_neg h

/-- The canonical control points build the (spec-modelled) ease-in-out curve. -/
theorem cubic_bezier_canonical :
    cubic_bezier (42/100) 0 (58/100) 1 = some easeInOutQuad := by
  unfold cubic_bezier; rw [if_pos]; norm_num

/-- Rust's `x % 360.0` lies strictly between `-360` and `360`. -/
theorem rrem_360_bounds (a : ℚ) : -360 < rrem a 360 ∧ rrem a 360 < 360 := by
  unfold rrem rtrunc
  have ha : 360 * (a / 360) = a := by ring
  by_cases h : 0 ≤ a / 360
  · rw [if_pos h]
    have h1 : ((⌊a / 360⌋ : ℤ) : ℚ) ≤ a / 360 := Int.floor_le _
    have h2 : a / 360 < (⌊a / 360⌋ : ℤ) + 1 := Int.lt_floor_add_one _
    constructor <;> linarith
  · rw [if_neg h]
    have h1 : a / 360 ≤ ((⌈a / 360⌉ : ℤ) : ℚ) := Int.le_ceil _
    have h2 : ((⌈a / 360⌉ : ℤ) : ℚ) < a / 360 + 1 := Int.ceil_lt_add_one _
    constructor <;> linarith

/-- The reverse-spiral normalization really lands in `[0, 360)`. -/
theorem reverseSpiralNormalize_mem (a : ℚ) :
    0 ≤ reverseSpiralNormalize a ∧ reverseSpiralNormalize a < 360 := by
  obtain ⟨hl, hr⟩ := rrem_360_bounds a
  unfold reverseSpiralNormalize
  by_cases h : rrem a 360 < 0
  · rw [if_pos h]; constructor <;> linarith
  · rw [if_neg h]; constructor <;> linarith

/-! ## Claim theorems -/

/-- Claim C1, counterexample: from the both-opacities-zero focused border,
the tick with `elapsed = 0.5` and `speed = 2.0` brings `fade_progress` to
exactly `1.0`, yet the fade does **not** complete on that tick: `event_anim`
is still `ANIM_FADE`, not the none state, because `(0.0..=1.0).contains(1.0)`
holds and the code takes the in-progress branch. -/
theorem C1_fade_in_completion_counterexample :
    (animate_fade fadeScenarioBorder (1/2) 2).animations.fade_progress = 1
    ∧ (animate_fade fadeScenarioBorder (1/2) 2).event_anim ≠ ANIM_NONE := by
  norm_num [animate_fade, animate_fadeWith, fadeSeed, fadeIncrement, fadeDirection,
    fadeFinish, fadeApplyEase, cubic_bezier, easeInOutQuad, fadeScenarioBorder,
    Color.get_opacity, Color.set_opacity, ANIM_NONE, ANIM_FADE]

/-- Claim C1 (amended): for the focused border with both opacities `0.0`,
`animate_fade` seeds `fade_progress = 0.0` and `fade_to_visible = true`;
the tick with `elapsed = 0.5` and `speed = 2.0` brings `fade_progress` to
exactly `1.0` and the fade-to-visible easing branch sets active opacity
`1.0` and inactive opacity `0.0`, but the animation is not yet cleared on
that tick (`event_anim` and `fade_to_visible` unchanged); a second such
tick pushes the progress past `1.0`, clamps it back to `1.0`, and only then
clears the animation (`event_anim = ANIM_NONE`, `fade_to_visible = false`)
with the opacities at `1.0` / `0.0`. -/
theorem C1_fade_in_completion_amended :
    (fadeSeed fadeScenarioBorder).animations.fade_progress = 0
    ∧ (fadeSeed fadeScenarioBorder).animations.fade_to_visible = true
    ∧ (animate_fade fadeScenarioBorder (1/2) 2).animations.fade_progress = 1
    ∧ (animate_fade fadeScenarioBorder (1/2) 2).active_color.get_opacity = 1
    ∧ (animate_fade fadeScenarioBorder (1/2) 2).inactive_color.get_opacity = 0
    ∧ (animate_fade fadeScenarioBorder (1/2) 2).event_anim = ANIM_FADE
    ∧ (animate_fade fadeScenarioBorder (1/2) 2).animations.fade_to_visible = true
    ∧ (animate_fade (animate_fade fadeScenarioBorder (1/2) 2) (1/2) 2).animations.fade_progress = 1
    ∧ (animate_fade (animate_fade fadeScenarioBorder (1/2) 2) (1/2) 2).active_color.get_opacity = 1
    ∧ (animate_fade (animate_fade fadeScenarioBorder (1/2) 2) (1/2) 2).inactive_color.get_opacity = 0
    ∧ (animate_fade (animate_fade fadeScenarioBorder (1/2) 2) (1/2) 2).animations.fade_to_visible = false
    ∧ (animate_fade (animate_fade fadeScenarioBorder (1/2) 2) (1/2) 2).event_anim = ANIM_NONE := by
  norm_num [animate_fade, animate_fadeWith, fadeSeed, fadeIncrement, fadeDirection,
    fadeFinish, fadeApplyEase, cubic_bezier, easeInOutQuad, fadeScenarioBorder,
    Color.get_opacity, Color.set_opacity, ANIM_NONE, ANIM_FADE]

/-- Claim C2, counterexample: from the freshly constructed (zero-angle)
border, one reverse-spiral tick (`elapsed = 1`, `speed = 10`) leaves
`spiral_angle = -10`; the normalization at the top of the following
`animate_spiral` tick leaves it at `-10`, outside `[0, 360)`, because that
normalization handles overflow only, not underflow. -/
theorem C2_spiral_angle_counterexample :
    spiralNormalize (animate_reverse_spiral spiralBorder 1 10).animations.spiral_angle = -10
    ∧ ¬ (0 ≤ spiralNormalize
          (animate_reverse_spiral spiralBorder 1 10).animations.spiral_angle) := by
  norm_num [spiralNormalize, animate_reverse_spiral, reverseSpiralNormalize, rrem, rtrunc,
    spiralBorder]

/-- Claim C2 (amended): the normalization at the top of
`animate_reverse_spiral` puts `spiral_angle` into `[0, 360)` for every
incoming angle (wrap-around for both signs); the normalization at the top
of `animate_spiral` subtracts `360` at most once and handles no underflow,
so it lands in `[0, 360)` only when the incoming angle lies in `[0, 720)` —
a precondition that spiral-only tick sequences with non-negative
`elapsed * speed` preserve, but that mixed sequences containing a
reverse-spiral tick can violate. -/
theorem C2_spiral_angle_normalization_amended (a : ℚ) (b : WindowBorder) (e s : ℚ) :
    (0 ≤ reverseSpiralNormalize a ∧ reverseSpiralNormalize a < 360)
    ∧ (0 ≤ a → a < 720 → 0 ≤ spiralNormalize a ∧ spiralNormalize a < 360)
    ∧ (0 ≤ b.animations.spiral_angle → b.animations.spiral_angle < 720 → 0 ≤ e * s →
        0 ≤ (animate_spiral b e s).animations.spiral_angle
        ∧ (animate_spiral b e s).animations.spiral_angle < 720) := by
  refine ⟨reverseSpiralNormalize_mem a, ?_, ?_⟩
  · intro h0 h720
    unfold spiralNormalize
    split <;> constructor <;> linarith
  · intro hb0 hb720 hes
    have hnorm : 0 ≤ spiralNormalize b.animations.spiral_angle
        ∧ spiralNormalize b.animations.spiral_angle < 360 := by
      unfold spiralNormalize
      split <;> constructor <;> linarith
    have hmin0 : 0 ≤ min (e * s) 359 := le_min hes (by norm_num)
    have hmin359 : min (e * s) 359 ≤ 359 := min_le_right _ _
    have hres : (animate_spiral b e s).animations.spiral_angle
        = spiralNormalize b.animations.spiral_angle + min (e * s) 359 := by
      simp [animate_spiral]
    rw [hres]
    constructor <;> linarith [hnorm.1, hnorm.2]

/-- Claim C2, witness: the amended normalization bounds, instantiated at
the concrete angle `400` for the spiral-side conjunct. -/
theorem C2_spiral_angle_normalization_witness :
    ((0:ℚ) ≤ 400 ∧ (400:ℚ) < 720)
    ∧ (0 ≤ spiralNormalize 400 ∧ spiralNormalize 400 < 360) :=
  ⟨by norm_num,
    (C2_spiral_angle_normalization_amended 400 spiralBorder 1 1).2.1
      (by norm_num) (by norm_num)⟩

/-- Claim C3: whenever the incremented `fade_progress` leaves `[0, 1]`,
the tick clamps it to the nearest bound (`max 0 (min fp 1)` is
`fp.clamp(0.0, 1.0)`), writes that value as the active opacity and its
complement as the inactive opacity, lowers `fade_to_visible`, and sets
`event_anim` to `ANIM_NONE`. -/
theorem C3_fade_termination (b : WindowBorder) (e s : ℚ)
    (h : ¬ (0 ≤ fadeIncrement b e s ∧ fadeIncrement b e s ≤ 1)) :
    (animate_fade b e s).animations.fade_progress = max 0 (min (fadeIncrement b e s) 1)
    ∧ (animate_fade b e s).active_color.get_opacity = max 0 (min (fadeIncrement b e s) 1)
    ∧ (animate_fade b e s).inactive_color.get_opacity
        = 1 - max 0 (min (fadeIncrement b e s) 1)
    ∧ (animate_fade b e s).animations.fade_to_visible = false
    ∧ (animate_fade b e s).event_anim = ANIM_NONE := by
  simp [animate_fade, animate_fadeWith, h, fadeFinish, Color.get_opacity, Color.set_opacity,
    fadeSeed_active_color, fadeSeed_inactive_color]

/-- Claim C3, witness: from the focused border at the upper bound, a tick
with `elapsed = 1`, `speed = 2` overshoots (`fadeIncrement = 3`) and the
termination branch fires. -/
theorem C3_fade_termination_witness :
    ¬ (0 ≤ fadeIncrement fadeBoundBorder 1 2 ∧ fadeIncrement fadeBoundBorder 1 2 ≤ 1)
    ∧ (animate_fade fadeBoundBorder 1 2).event_anim = ANIM_NONE := by
  have h : ¬ (0 ≤ fadeIncrement fadeBoundBorder 1 2
      ∧ fadeIncrement fadeBoundBorder 1 2 ≤ 1) := by
    norm_num [fadeIncrement, fadeSeed, fadeDirection, fadeBoundBorder, Color.get_opacity]
  exact ⟨h, (C3_fade_termination fadeBoundBorder 1 2 h).2.2.2.2⟩

/-- Claim C4: on any tick that is not an initial both-opacities-zero
reveal and whose incoming `fade_to_visible` is false, the written active
and inactive opacities sum to exactly `1` — in the in-progress easing
branch as `(y, 1 - y)` and in the termination branch as
`(final, 1 - final)`. -/
theorem C4_fade_opacity_invariant (b : WindowBorder) (e s : ℚ)
    (h0 : ¬ (b.active_color.get_opacity = 0 ∧ b.inactive_color.get_opacity = 0))
    (hv : b.animations.fade_to_visible = false) :
    (animate_fade b e s).active_color.get_opacity
      + (animate_fade b e s).inactive_color.get_opacity = 1 := by
  have hseed : fadeSeed b = b := fadeSeed_of_not_hidden b h0
  by_cases h : 0 ≤ fadeIncrement b e s ∧ fadeIncrement b e s ≤ 1
  · simp [animate_fade, animate_fadeWith, h, hseed, fadeApplyEase, cubic_bezier_canonical,
      hv, Color.get_opacity, Color.set_opacity]
  · simp [animate_fade, animate_fadeWith, h, hseed, fadeFinish,
      Color.get_opacity, Color.set_opacity]

/-- Claim C4, witness: the unfocused mid-fade border at progress `3/10`
keeps the opacity sum at `1` after a tick with `elapsed = 1/10`, `speed = 1`. -/
theorem C4_fade_opacity_invariant_witness :
    ¬ (fadeBoundBorder.active_color.get_opacity = 0
        ∧ fadeBoundBorder.inactive_color.get_opacity = 0)
    ∧ fadeBoundBorder.animations.fade_to_visible = false
    ∧ (animate_fade fadeBoundBorder (1/10) 1).active_color.get_opacity
        + (animate_fade fadeBoundBorder (1/10) 1).inactive_color.get_opacity = 1 := by
  have h0 : ¬ (fadeBoundBorder.active_color.get_opacity = 0
      ∧ fadeBoundBorder.inactive_color.get_opacity = 0) := by
    norm_num [fadeBoundBorder, Color.get_opacity]
  exact ⟨h0, rfl, C4_fade_opacity_invariant fadeBoundBorder (1/10) 1 h0 rfl⟩

/-- Claim C5: with the opacities not both zero and the focus just flipped
to unfocused, the tick continues from the current `fade_progress` and
decrements it by `elapsed * speed` (clamped into `[0, 1]` only when the
decrement leaves the interval); it never restarts the progress. -/
theorem C5_mid_fade_direction_flip (b : WindowBorder) (e s : ℚ)
    (h0 : ¬ (b.active_color.get_opacity = 0 ∧ b.inactive_color.get_opacity = 0))
    (hact : b.is_active_window = false)
    (hp0 : 0 < b.animations.fade_progress) (hp1 : b.animations.fade_progress < 1) :
    (animate_fade b e s).animations.fade_progress
      = max 0 (min (b.animations.fade_progress - e * s) 1) := by
  have hseed : fadeSeed b = b := fadeSeed_of_not_hidden b h0
  have hfi : fadeIncrement b e s = b.animations.fade_progress - e * s := by
    rw [fadeIncrement, hseed, fadeDirection, if_neg (by simp [hact])]
    ring
  by_cases h : 0 ≤ fadeIncrement b e s ∧ fadeIncrement b e s ≤ 1
  · have hclamp : max 0 (min (b.animations.fade_progress - e * s) 1)
        = b.animations.fade_progress - e * s := by
      rw [← hfi, min_eq_left h.2, max_eq_right h.1]
    have hfa : (animate_fade b e s).animations.fade_progress = fadeIncrement b e s := by
      simp only [animate_fade, animate_fadeWith]
      rw [if_neg (not_not_intro h), fadeApplyEase_animations]
    rw [hfa, hfi, hclamp]
  · rw [← hfi]
    simp [animate_fade, animate_fadeWith, h, fadeFinish]

/-- Claim C5, witness: the unfocused border at progress `3/10` moves to
`3/10 - 1/10 = 1/5` on a tick with `elapsed = 1/10`, `speed = 1`. -/
theorem C5_mid_fade_direction_flip_witness :
    ¬ (midFadeBorder.active_color.get_opacity = 0
        ∧ midFadeBorder.inactive_color.get_opacity = 0)
    ∧ midFadeBorder.is_active_window = false
    ∧ (0 < midFadeBorder.animations.fade_progress
        ∧ midFadeBorder.animations.fade_progress < 1)
    ∧ (animate_fade midFadeBorder (1/10) 1).animations.fade_progress
        = max 0 (min (midFadeBorder.animations.fade_progress - (1/10) * 1) 1) := by
  have h0 : ¬ (midFadeBorder.active_color.get_opacity = 0
      ∧ midFadeBorder.inactive_color.get_opacity = 0) := by
    norm_num [midFadeBorder, Color.get_opacity]
  refine ⟨h0, rfl, by norm_num [midFadeBorder], ?_⟩
  exact C5_mid_fade_direction_flip midFadeBorder (1/10) 1 h0 rfl
    (by norm_num [midFadeBorder]) (by norm_num [midFadeBorder])

/-- Claim C6, counterexample: at the upper bound (`fade_progress = 1`,
focused, opacities resolved to `(1, 0)`), a further tick with the
non-negative elapsed time `0` leaves the progress at the bound but does
**not** remove the animation from the active set: `event_anim` stays
`ANIM_FADE`, because `fade_progress` stays inside `[0, 1]` and the
in-progress branch runs instead of the termination branch. -/
theorem C6_idempotence_counterexample :
    (animate_fade fadeBoundBorder 0 2).animations.fade_progress = 1
    ∧ (animate_fade fadeBoundBorder 0 2).event_anim ≠ ANIM_NONE := by
  norm_num [animate_fade, animate_fadeWith, fadeSeed, fadeIncrement, fadeDirection,
    fadeFinish, fadeApplyEase, cubic_bezier, easeInOutQuad, fadeBoundBorder,
    Color.get_opacity, Color.set_opacity, ANIM_NONE, ANIM_FADE]

/-- Claim C6 (amended): at either fade bound with the opacities already at
the corresponding resolved values and the direction matching, any further
tick with **positive** `elapsed * speed` leaves `fade_progress` at that
bound and the opacities unchanged, and clears the animation
(`event_anim = ANIM_NONE`); with `elapsed * speed = 0` the progress and
opacities also stay put, but the animation is not removed from the active
set. -/
theorem C6_idempotence_at_bounds_amended (b : WindowBorder) (e s : ℚ)
    (hb : (b.animations.fade_progress = 1 ∧ b.is_active_window = true
            ∧ b.active_color.get_opacity = 1 ∧ b.inactive_color.get_opacity = 0)
        ∨ (b.animations.fade_progress = 0 ∧ b.is_active_window = false
            ∧ b.active_color.get_opacity = 0 ∧ b.inactive_color.get_opacity = 1))
    (hpos : 0 < e * s) :
    (animate_fade b e s).animations.fade_progress = b.animations.fade_progress
    ∧ (animate_fade b e s).active_color.get_opacity = b.active_color.get_opacity
    ∧ (animate_fade b e s).inactive_color.get_opacity = b.inactive_color.get_opacity
    ∧ (animate_fade b e s).event_anim = ANIM_NONE := by
  rcases hb with ⟨hp, hact, hao, hio⟩ | ⟨hp, hact, hao, hio⟩
  all_goals simp only [Color.get_opacity] at hao hio
  · have h0 : ¬ (b.active_color.get_opacity = 0 ∧ b.inactive_color.get_opacity = 0) := by
      simp [Color.get_opacity, hao]
    have hseed : fadeSeed b = b := fadeSeed_of_not_hidden b h0
    have hfi : fadeIncrement b e s = 1 + e * s := by
      rw [fadeIncrement, hseed, fadeDirection, if_pos (by simp [hact]), hp]
      ring
    have h : ¬ (0 ≤ fadeIncrement b e s ∧ fadeIncrement b e s ≤ 1) := by
      rw [hfi]; intro hc; linarith [hc.2]
    have hclamp : max 0 (min (fadeIncrement b e s) 1) = 1 := by
      rw [hfi, min_eq_right (by linarith), max_eq_right (by norm_num)]
    simp [animate_fade, animate_fadeWith, h, hseed, fadeFinish, Color.get_opacity,
      Color.set_opacity, hclamp, hp, hao, hio]
  · have h0 : ¬ (b.active_color.get_opacity = 0 ∧ b.inactive_color.get_opacity = 0) := by
      simp [Color.get_opacity, hio]
    have hseed : fadeSeed b = b := fadeSeed_of_not_hidden b h0
    have hfi : fadeIncrement b e s = -(e * s) := by
      rw [fadeIncrement, hseed, fadeDirection, if_neg (by simp [hact]), hp]
      ring
    have h : ¬ (0 ≤ fadeIncrement b e s ∧ fadeIncrement b e s ≤ 1) := by
      rw [hfi]; intro hc; linarith [hc.1]
    have hclamp : max 0 (min (fadeIncrement b e s) 1) = 0 := by
      rw [hfi, min_eq_left (by linarith), max_eq_left (by linarith)]
    simp [animate_fade, animate_fadeWith, h, hseed, fadeFinish, Color.get_opacity,
      Color.set_opacity, hclamp, hp, hao, hio]

/-- Claim C6, witness: the focused border at the upper bound, ticked with
`elapsed = 1`, `speed = 2`, stays at progress `1` and is cleared. -/
theorem C6_idempotence_at_bounds_witness :
    (0:ℚ) < 1 * 2
    ∧ (animate_fade fadeBoundBorder 1 2).animations.fade_progress
        = fadeBoundBorder.animations.fade_progress
    ∧ (animate_fade fadeBoundBorder 1 2).event_anim = ANIM_NONE := by
  have hb : (fadeBoundBorder.animations.fade_progress = 1
        ∧ fadeBoundBorder.is_active_window = true
        ∧ fadeBoundBorder.active_color.get_opacity = 1
        ∧ fadeBoundBorder.inactive_color.get_opacity = 0)
      ∨ (fadeBoundBorder.animations.fade_progress = 0
        ∧ fadeBoundBorder.is_active_window = false
        ∧ fadeBoundBorder.active_color.get_opacity = 0
        ∧ fadeBoundBorder.inactive_color.get_opacity = 1) :=
    Or.inl (by norm_num [fadeBoundBorder, Color.get_opacity])
  obtain ⟨h1, _, _, h4⟩ :=
    C6_idempotence_at_bounds_amended fadeBoundBorder 1 2 hb (by norm_num)
  exact ⟨by norm_num, h1, h4⟩

/-- Claim C7: in a present config section, a kind listed with a numeric
value resolves to that number, and a kind listed with a null or malformed
value resolves to the default speed `100.0`; in particular
`{active: {Fade: null}, inactive: {Fade: 50}}` resolves to speed `100`
for the active `Fade` and `50` for the inactive `Fade`. -/
theorem C7_animation_speed_resolution (l : List (AnimationType × YamlValue))
    (k : AnimationType) (q : ℚ) :
    ((k, YamlValue.number q) ∈ l → (k, q) ∈ animation (some l))
    ∧ ((k, YamlValue.null) ∈ l → (k, (100:ℚ)) ∈ animation (some l))
    ∧ ((k, YamlValue.other) ∈ l → (k, (100:ℚ)) ∈ animation (some l))
    ∧ animation (some [(AnimationType.Fade, YamlValue.null)])
        = [(AnimationType.Fade, 100)]
    ∧ animation (some [(AnimationType.Fade, YamlValue.number 50)])
        = [(AnimationType.Fade, 50)] := by
  refine ⟨?_, ?_, ?_, rfl, rfl⟩ <;>
    · intro hm
      simp only [animation, List.mem_map]
      exact ⟨_, hm, rfl⟩

/-- Claim C7, witness: the two scenario sections, with the general
resolution rule applied to the null-valued active `Fade` entry. -/
theorem C7_animation_speed_resolution_witness :
    (AnimationType.Fade, YamlValue.null) ∈ [(AnimationType.Fade, YamlValue.null)]
    ∧ (AnimationType.Fade, (100:ℚ))
        ∈ animation (some [(AnimationType.Fade, YamlValue.null)]) :=
  ⟨List.mem_singleton.mpr rfl,
    (C7_animation_speed_resolution [(AnimationType.Fade, YamlValue.null)]
        AnimationType.Fade 0).2.1 (List.mem_singleton.mpr rfl)⟩

/-- Claim C8: when the easing-curve construction fails and the incremented
`fade_progress` stays inside `[0, 1]`, the tick leaves both opacities
untouched — a visual no-op for the frame, not a crash. -/
theorem C8_easing_failure_no_op (cb : CubicBezierFn) (b : WindowBorder) (e s : ℚ)
    (hfail : cb (42/100) 0 (58/100) 1 = none)
    (hin : 0 ≤ fadeIncrement b e s ∧ fadeIncrement b e s ≤ 1) :
    (animate_fadeWith cb b e s).active_color.get_opacity
        = b.active_color.get_opacity
    ∧ (animate_fadeWith cb b e s).inactive_color.get_opacity
        = b.inactive_color.get_opacity := by
  simp [animate_fadeWith, hin, fadeApplyEase, hfail,
    fadeSeed_active_color, fadeSeed_inactive_color]

/-- Claim C8, witness: the always-failing constructor on the in-range
border (`fadeIncrement = 1` at `elapsed = 0`) leaves the opacities alone. -/
theorem C8_easing_failure_no_op_witness :
    cbNone (42/100) 0 (58/100) 1 = none
    ∧ (0 ≤ fadeIncrement fadeBoundBorder 0 2 ∧ fadeIncrement fadeBoundBorder 0 2 ≤ 1)
    ∧ (animate_fadeWith cbNone fadeBoundBorder 0 2).active_color.get_opacity
        = fadeBoundBorder.active_color.get_opacity := by
  have hin : 0 ≤ fadeIncrement fadeBoundBorder 0 2
      ∧ fadeIncrement fadeBoundBorder 0 2 ≤ 1 := by
    norm_num [fadeIncrement, fadeSeed, fadeDirection, fadeBoundBorder, Color.get_opacity]
  exact ⟨rfl, hin,
    (C8_easing_failure_no_op cbNone fadeBoundBorder 0 2 rfl hin).1⟩

/-- Claim C9: an `EVENT_SYSTEM_FOREGROUND` notification with a non-cursor
object id only requests an immediate reposition (`set_pos`) against the
populated border and changes nothing else: the border state — its
animations included — is returned unmodified, and no fade transition is
emitted. -/
theorem C9_foreground_reposition_only (id_object : Int) (b : WindowBorder)
    (h : id_object ≠ OBJID_CURSOR) :
    handle_win_event EVENT_SYSTEM_FOREGROUND id_object b = (b, [BorderEffect.setPos]) := by
  simp [handle_win_event, h, EVENT_SYSTEM_FOREGROUND, EVENT_OBJECT_LOCATIONCHANGE]

/-- Claim C9, witness: object id `0` on the concrete scenario border. -/
theorem C9_foreground_reposition_only_witness :
    (0 : Int) ≠ OBJID_CURSOR
    ∧ handle_win_event EVENT_SYSTEM_FOREGROUND 0 fadeScenarioBorder
        = (fadeScenarioBorder, [BorderEffect.setPos]) :=
  ⟨by norm_num [OBJID_CURSOR],
    C9_foreground_reposition_only 0 fadeScenarioBorder (by norm_num [OBJID_CURSOR])⟩

/-- Claim C10: an absent or null section deserializes to the empty speed
map, and a kind not listed in a section gets no entry at all — the `100.0`
default is never injected for unlisted kinds. -/
theorem C10_unlisted_kinds_absent (l : List (AnimationType × YamlValue))
    (k : AnimationType) (h : k ∉ l.map Prod.fst) :
    animation none = [] ∧ ∀ q : ℚ, (k, q) ∉ animation (some l) := by
  refine ⟨rfl, ?_⟩
  intro q hq
  simp only [animation, List.mem_map] at hq
  obtain ⟨kv, hkv, heq⟩ := hq
  apply h
  rw [List.mem_map]
  exact ⟨kv, hkv, (Prod.mk.injEq _ _ _ _).mp heq |>.1⟩

/-- Claim C10, witness: `Fade` is not listed in a section holding only a
`Spiral` entry, so it receives no resolved speed, and the absent section
is empty. -/
theorem C10_unlisted_kinds_absent_witness :
    AnimationType.Fade ∉ ([(AnimationType.Spiral, YamlValue.number 5)].map Prod.fst)
    ∧ (animation none = []
        ∧ (AnimationType.Fade, (100:ℚ))
            ∉ animation (some [(AnimationType.Spiral, YamlValue.number 5)])) := by
  have h : AnimationType.Fade
      ∉ ([(AnimationType.Spiral, YamlValue.number 5)].map Prod.fst) := by
    simp
  obtain ⟨h1, h2⟩ :=
    C10_unlisted_kinds_absent [(AnimationType.Spiral, YamlValue.number 5)]
      AnimationType.Fade h
  exact ⟨h, h1, h2 100⟩

end TackyBorders
